import Mathlib

/-
Verification of the jsoncut MCP server against its specification.

The repository has two variants of the server:
  * a single-user stdio variant (src/index.ts), where the credential comes
    from the environment (JSONCUT_API_KEY) or a per-call apiKey argument;
  * a multi-session HTTP variant (the second source file), where each
    session is created with a credential taken from the X-API-Key header
    and stored in a per-session registry.

We shallowly embed the JavaScript values handled by the tool handlers as a
`Json` inductive (with an explicit `undefined`, since the handlers test
`!== undefined` and rely on JS truthiness), embed each handler as a Lean
function over it, and embed the HTTP session multiplexer as a function on
an explicit session map.  JavaScript runtime errors (member access on
undefined/null, calling forEach on a non-function) are modelled with
`Except String`; `throw new Error(msg)` is `Except.error msg`.
-/

namespace Jsoncut

/-- JavaScript values as handled by the tool handlers.  Numbers are
modelled as integers (every number the handlers introduce is an integer;
floating-point formatting is abstracted in `toFixed2` below). -/
inductive Json where
  | null : Json
  | undefined : Json
  | bool : Bool → Json
  | num : Int → Json
  | str : String → Json
  | arr : List Json → Json
  | obj : List (String × Json) → Json
deriving Repr

/-- Test for the JavaScript value `undefined` (the handlers guard optional
fields with a comparison against undefined). -/
def isUndefined : Json → Bool
  | Json.undefined => true
  | _ => false

/-- JavaScript truthiness: `undefined`, `null`, `false`, `0` and the empty
string are falsy; every object and array (empty or not) is truthy. -/
def truthy : Json → Bool
  | Json.null => false
  | Json.undefined => false
  | Json.bool b => b
  | Json.num n => n != 0
  | Json.str s => s ≠ ""
  | Json.arr _ => true
  | Json.obj _ => true

/-- The JavaScript `a || b` operator on values. -/
def jsOr (a b : Json) : Json :=
  if truthy a then a else b

/-- JavaScript property access `base[k]`.  Reading a property of
`undefined` or `null` throws a TypeError; reading an absent key of an
object yields `undefined`; `length` works on arrays and strings; any
other read on a primitive yields `undefined`. -/
def member : Json → String → Except String Json
  | Json.undefined, _ => Except.error "Cannot read properties of undefined"
  | Json.null, _ => Except.error "Cannot read properties of null"
  | Json.obj fields, k => Except.ok ((fields.lookup k).getD Json.undefined)
  | Json.arr xs, k =>
      if k = "length" then Except.ok (Json.num xs.length) else Except.ok Json.undefined
  | Json.str s, k =>
      if k = "length" then Except.ok (Json.num s.length) else Except.ok Json.undefined
  | _, _ => Except.ok Json.undefined

/-- JavaScript `v > n` for an integer literal `n`: true only when `v` is a
number greater than `n` (comparisons against `undefined` are false). -/
def jsGtNum (v : Json) (n : Int) : Bool :=
  match v with
  | Json.num m => n < m
  | Json.str s => n < (s.length : Int)
  | _ => false

mutual

/-- String coercion used by template literals such as a template with the
placeholder for err.message.  Exact text of object coercions does not
matter to any claim. -/
def jsToString : Json → String
  | Json.str s => s
  | Json.num n => toString n
  | Json.bool b => if b then "true" else "false"
  | Json.null => "null"
  | Json.undefined => "undefined"
  | Json.arr xs => String.intercalate "," (jsToStringList xs)
  | Json.obj _ => "[object Object]"

def jsToStringList : List Json → List String
  | [] => []
  | x :: xs => jsToString x :: jsToStringList xs

end

/-- JavaScript numeric division (used for res.size / 1024 / 1024); always
yields a number, never throws.  Division of a non-number is abstracted as
0 (in JS it would be NaN); no claim depends on the numeric text. -/
def jsDivNum (v : Json) (n : Int) : Json :=
  match v with
  | Json.num m => Json.num (m / n)
  | _ => Json.num 0

/-- Number.prototype.toFixed(2), abstracted: total on every value the
handlers feed it (in JS, `x.toFixed` is called only on the result of a
division, which is always a number, so it never throws). -/
def toFixed2 (v : Json) : String :=
  jsToString v

mutual

/-- JSON.stringify, with whitespace and string escaping abstracted (no
claim inspects serialized text). -/
def jsonStringify : Json → String
  | Json.null => "null"
  | Json.undefined => "undefined"
  | Json.bool b => if b then "true" else "false"
  | Json.num n => toString n
  | Json.str s => "\"" ++ s ++ "\""
  | Json.arr xs => "[" ++ String.intercalate "," (jsonStringifyList xs) ++ "]"
  | Json.obj fields =>
      "\x7b" ++ String.intercalate "," (jsonStringifyFields fields) ++ "\x7d"

def jsonStringifyList : List Json → List String
  | [] => []
  | x :: xs => jsonStringify x :: jsonStringifyList xs

def jsonStringifyFields : List (String × Json) → List String
  | [] => []
  | (k, v) :: rest => ("\"" ++ k ++ "\":" ++ jsonStringify v) :: jsonStringifyFields rest

end

/-- A tool-call result as returned to the MCP client: the text content and
the isError flag (absent in the source on success, i.e. false). -/
structure CallResult where
  text : String
  isError : Bool
deriving DecidableEq, Repr

/-- handleCreateImageConfig of the stdio variant (src/index.ts lines
515-555): builds the config object with defaults width 1920, height 1080,
layers [] substituted for falsy supplied values, then appends
backgroundColor, format, quality when they are not undefined and defaults
when it is not undefined.  Returns the config object (the handler wraps
it with the type discriminator; see imageToolText). -/
def handleCreateImageConfig (args : Json) : Except String Json := do
  let w ← member args "width"
  let h ← member args "height"
  let ls ← member args "layers"
  let bg ← member args "backgroundColor"
  let fm ← member args "format"
  let q ← member args "quality"
  let df ← member args "defaults"
  pure (Json.obj
    ([("width", jsOr w (Json.num 1920)),
      ("height", jsOr h (Json.num 1080)),
      ("layers", jsOr ls (Json.arr []))] ++
     (if isUndefined bg then [] else [("backgroundColor", bg)]) ++
     (if isUndefined fm then [] else [("format", fm)]) ++
     (if isUndefined q then [] else [("quality", q)]) ++
     (if isUndefined df then [] else [("defaults", df)])))

/-- The length property of a truthy value, as read by
`args.audioTracks.length` (the guard `args.audioTracks &&` excludes
undefined and null, so this read never throws): arrays and strings have
their length, an object its length field, other primitives undefined. -/
def lengthProp (v : Json) : Json :=
  match v with
  | Json.obj fs => (fs.lookup "length").getD Json.undefined
  | Json.arr xs => Json.num xs.length
  | Json.str s => Json.num s.length
  | _ => Json.undefined

/-- The audioTracks property conditionally added by the video builder:
present exactly when `args.audioTracks && args.audioTracks.length > 0`. -/
def audioTracksSeg (tracks : Json) : List (String × Json) :=
  if truthy tracks then
    if jsGtNum (lengthProp tracks) 0 then [("audioTracks", tracks)] else []
  else []

/-- handleCreateVideoConfig of the stdio variant (src/index.ts lines
557-618): defaults width 1280, height 720, fps 25, format mp4, clips []
for falsy supplied values; fast/loopAudio/outputVolume/keepSourceAudio/
clipsAudioVolume appended when not undefined; audioFilePath, audioNorm
and defaults appended when truthy; audioTracks appended when truthy with
positive length. -/
def handleCreateVideoConfig (args : Json) : Except String Json := do
  let w ← member args "width"
  let h ← member args "height"
  let fps ← member args "fps"
  let fm ← member args "format"
  let cl ← member args "clips"
  let fast ← member args "fast"
  let afp ← member args "audioFilePath"
  let la ← member args "loopAudio"
  let ov ← member args "outputVolume"
  let ksa ← member args "keepSourceAudio"
  let cav ← member args "clipsAudioVolume"
  let tracks ← member args "audioTracks"
  let an ← member args "audioNorm"
  let df ← member args "defaults"
  pure (Json.obj
    ([("width", jsOr w (Json.num 1280)),
      ("height", jsOr h (Json.num 720)),
      ("fps", jsOr fps (Json.num 25)),
      ("format", jsOr fm (Json.str "mp4")),
      ("clips", jsOr cl (Json.arr []))] ++
     (if isUndefined fast then [] else [("fast", fast)]) ++
     (if truthy afp then [("audioFilePath", afp)] else []) ++
     (if isUndefined la then [] else [("loopAudio", la)]) ++
     (if isUndefined ov then [] else [("outputVolume", ov)]) ++
     (if isUndefined ksa then [] else [("keepSourceAudio", ksa)]) ++
     (if isUndefined cav then [] else [("clipsAudioVolume", cav)]) ++
     audioTracksSeg tracks ++
     (if truthy an then [("audioNorm", an)] else []) ++
     (if truthy df then [("defaults", df)] else [])))

/-- handleCreateImageConfig of the HTTP variant (lines 297-306 of the
HTTP source file): returns the supplied arguments verbatim
(JSON.stringify(args)); no defaults are substituted and every field,
recognized or not, passes through unchanged. -/
def handleCreateImageConfigHttp (args : Json) : Json :=
  args

/-- handleCreateVideoConfig of the HTTP variant (lines 308-317 of the
HTTP source file): returns the supplied arguments verbatim. -/
def handleCreateVideoConfigHttp (args : Json) : Json :=
  args

/-- Field lookup on a built configuration object: the value stored under
key k, none when the result is not an object or the key is absent. -/
def resultField (r : Except String Json) (k : String) : Option Json :=
  match r with
  | Except.ok (Json.obj fields) => fields.lookup k
  | _ => none

/-- Field lookup directly on a Json object. -/
def jsonField (j : Json) (k : String) : Option Json :=
  match j with
  | Json.obj fields => fields.lookup k
  | _ => none

/-- Outcome of the axios POST to /api/v1/jobs/validate, as observed by the
handler: a 2xx response carrying response.data, a non-2xx response
(error.response present, carrying error.response.data, status and
statusText), or a transport-level failure (error without a response). -/
inductive RemoteOutcome where
  | ok : Json → RemoteOutcome
  | httpError : Json → Int → String → RemoteOutcome
  | transportError : String → RemoteOutcome

/-- A remote validation endpoint: maps the posted type, config and api key
to the outcome of the HTTP call.  The handlers are verified for every such
behaviour, which is how "no network call is observable" is expressed: the
result does not depend on this function. -/
def RemoteApi : Type :=
  Json → Json → Json → RemoteOutcome

/-- The process-wide credential of the stdio variant as a JS value:
config.apiKey is JSONCUT_API_KEY when set, null otherwise. -/
def envJson : Option String → Json
  | some k => Json.str k
  | none => Json.null

/-- The error message thrown by getApiKey in the stdio variant
(src/index.ts lines 68-76). -/
def authErrorMessage : String :=
  "API key is required. Set JSONCUT_API_KEY environment variable or provide apiKey parameter."

/-- A caller-facing structured validation error result (isError true), as
produced by the catch clause of handleValidateConfig for an error without
an HTTP response. -/
def validationError (msg : String) : CallResult :=
  { text := "Validation Error: " ++ msg, isError := true }

/-- The phase of the stdio handleValidateConfig (src/index.ts lines
620-655) that runs before the network call: destructures args, throws on
a missing (falsy) type or config, parses a string config (throwing
"Invalid config JSON string" when JSON.parse fails), and resolves the api
key via getApiKey (providedKey || config.apiKey, throwing
authErrorMessage when the result is falsy).  On success it returns the
triple (type, parsed config, key) that is posted to the remote endpoint.
JSON.parse is supplied as a parameter (parse s = none models a parse
exception); envKey models config.apiKey (JSONCUT_API_KEY or null). -/
def validatePre (parse : String → Option Json) (envKey : Option String)
    (args : Json) : Except String (Json × Json × Json) := do
  let ty ← member args "type"
  let cfg ← member args "config"
  let providedKey ← member args "apiKey"
  if truthy ty = false then
    Except.error "Missing required parameter: type"
  else if truthy cfg = false then
    Except.error "Missing required parameter: config"
  else do
    let parsedConfig ←
      match cfg with
      | Json.str s =>
          match parse s with
          | some j => pure j
          | none => Except.error "Invalid config JSON string"
      | other => pure other
    let key := jsOr providedKey (envJson envKey)
    if truthy key = false then
      Except.error authErrorMessage
    else
      pure (ty, parsedConfig, key)

/-- One line per entry of validation.errors, as produced by the forEach at
src/index.ts lines 668-677 (err.message, optional err.field, 1-based
index). -/
def errLines : List Json → Nat → Except String String
  | [], _ => Except.ok ""
  | e :: rest, idx => do
      let m ← member e "message"
      let f ← member e "field"
      let line := "  " ++ toString (idx + 1) ++ ". " ++ jsToString m ++
        (if truthy f then " (field: " ++ jsToString f ++ ")" else "") ++ "\n"
      let restLines ← errLines rest (idx + 1)
      pure (line ++ restLines)

/-- One line per entry of validation.detectedResources, as produced by the
forEach at src/index.ts lines 679-688 (res.type, res.url, optional size in
MB). -/
def resLines : List Json → Except String String
  | [] => Except.ok ""
  | r :: rest => do
      let ty ← member r "type"
      let url ← member r "url"
      let size ← member r "size"
      let line := "  - " ++ jsToString ty ++ ": " ++ jsToString url ++
        (if truthy size then
          " (" ++ toFixed2 (jsDivNum (jsDivNum size 1024) 1024) ++ " MB)"
        else "") ++ "\n"
      let restLines ← resLines rest
      pure (line ++ restLines)

/-- The guarded Errors section of the validation message (src/index.ts
lines 668-677): appended only when validation.errors is truthy with
positive length; calling forEach on a truthy non-array with positive
length throws. -/
def errorsBlock (errs : Json) : Except String String := do
  if truthy errs then do
    let len ← member errs "length"
    if jsGtNum len 0 then
      match errs with
      | Json.arr items => do
          let ls ← errLines items 0
          pure ("\nErrors:\n" ++ ls)
      | _ => Except.error "validation.errors.forEach is not a function"
    else pure ""
  else pure ""

/-- The guarded Detected Resources section of the validation message
(src/index.ts lines 679-688). -/
def resourcesBlock (ress : Json) : Except String String := do
  if truthy ress then do
    let len ← member ress "length"
    if jsGtNum len 0 then
      match ress with
      | Json.arr items => do
          let ls ← resLines items
          pure ("\nDetected Resources:\n" ++ ls)
      | _ => Except.error "validation.detectedResources.forEach is not a function"
    else pure ""
  else pure ""

/-- Maps a 2xx response body to the caller-facing result (src/index.ts
lines 657-709): when result.success and result.data are truthy, builds
the Validation Result message from isValid, the optional estimatedTokens,
and the guarded errors and detectedResources sections; otherwise returns
a validation error built from result.error.  A JS runtime error in this
mapping (property access on undefined/null, forEach on a non-array) is an
Except.error. -/
def formatSuccess (result : Json) : Except String CallResult := do
  let success ← member result "success"
  if truthy success then do
    let data ← member result "data"
    if truthy data then do
      let validation := data
      let isValid ← member validation "isValid"
      let msg := "Validation Result:\n- Valid: " ++
        (if truthy isValid then "✅ Yes" else "❌ No") ++ "\n"
      let est ← member validation "estimatedTokens"
      let msg := msg ++
        (if isUndefined est then ""
         else "- Estimated Tokens: " ++ jsToString est ++ "\n")
      let errs ← member validation "errors"
      let eb ← errorsBlock errs
      let ress ← member validation "detectedResources"
      let rb ← resourcesBlock ress
      pure { text := msg ++ eb ++ rb, isError := false }
    else do
      let e ← member result "error"
      pure (validationError (if truthy e then jsToString e else "Validation failed"))
  else do
    let e ← member result "error"
    pure (validationError (if truthy e then jsToString e else "Validation failed"))

/-- The catch clause of the stdio handleValidateConfig applied to the
remote outcome (src/index.ts lines 710-733): a response error is mapped
through errorData.error || errorData.message || the status line, with an
optional Details block; an error without a response uses error.message.
A 2xx outcome goes through formatSuccess, and a runtime error raised
there is caught by the same clause.  An Except.error out of this function
models an exception escaping handleValidateConfig itself (a raise inside
the catch clause), which is then caught at the dispatch boundary. -/
def handleRemote (out : RemoteOutcome) : Except String CallResult :=
  match out with
  | RemoteOutcome.ok data =>
      match formatSuccess data with
      | Except.ok r => Except.ok r
      | Except.error m => Except.ok (validationError m)
  | RemoteOutcome.httpError errData status statusText => do
      let e ← member errData "error"
      let base ←
        if truthy e then pure (jsToString e)
        else do
          let m ← member errData "message"
          if truthy m then pure (jsToString m)
          else pure ("API Error: " ++ toString status ++ " " ++ statusText)
      let d ← member errData "details"
      let msg := if truthy d then base ++ "\nDetails: " ++ jsonStringify d else base
      pure (validationError msg)
  | RemoteOutcome.transportError m => Except.ok (validationError m)

/-- The full stdio handleValidateConfig: the pre-network phase followed by
the network call and response mapping.  A throw in the pre-network phase
is caught by the handler's own catch clause (no response attached) and
becomes a structured validation error; in that case the remote endpoint
is never invoked. -/
def handleValidateConfig (parse : String → Option Json) (envKey : Option String)
    (remote : RemoteApi) (args : Json) : Except String CallResult :=
  match validatePre parse envKey args with
  | Except.error m => Except.ok (validationError m)
  | Except.ok (ty, cfg, key) => handleRemote (remote ty cfg key)

/-- getApiKey of the HTTP variant (lines 86-94 of the HTTP source file):
providedKey || this.apiKey, where this.apiKey is the credential the
session's registry was constructed with; throws when the result is falsy.
A truthy providedKey (the apiKey tool argument) takes precedence over the
session credential. -/
def getApiKeyHttp (providedKey : Json) (sessionKey : String) : Except String Json :=
  let key := jsOr providedKey (Json.str sessionKey)
  if truthy key = false then
    Except.error "API key is required. Provide X-API-Key header when connecting."
  else
    Except.ok key

/-- handleValidateConfig of the HTTP variant (lines 319-361): no
type/config checks and no string parsing; resolves the key via
getApiKeyHttp and posts, mapping a 2xx response to its stringified body
and any failure to a Validation Error result (optional chaining on
error.response makes the catch clause total). -/
def handleValidateConfigHttp (sessionKey : String) (remote : RemoteApi)
    (args : Json) : Except String CallResult := do
  let ty ← member args "type"
  let cfg ← member args "config"
  let providedKey ← member args "apiKey"
  match getApiKeyHttp providedKey sessionKey with
  | Except.error m => pure (validationError (m ++ "\n"))
  | Except.ok key =>
      match remote ty cfg key with
      | RemoteOutcome.ok data =>
          pure { text := jsonStringify data, isError := false }
      | RemoteOutcome.httpError errData _ _ =>
          let m := match jsonField errData "message" with
            | some mv => if truthy mv then jsToString mv else "Validation failed"
            | none => "Validation failed"
          let details := match jsonField errData "errors" with
            | some ev => if truthy ev then jsonStringify ev else ""
            | none => ""
          pure (validationError (m ++ "\n" ++ details))
      | RemoteOutcome.transportError m =>
          pure (validationError (m ++ "\n"))

/-- The names of the five tools declared by both variants. -/
def knownToolNames : List String :=
  ["create_image_config", "create_video_config", "validate_config",
   "get_image_schema", "get_video_schema"]

/-- The inner switch of the stdio CallToolRequestSchema handler
(src/index.ts lines 478-500): a pure lookup by name dispatching to the
handlers, with the default branch throwing the unknown-tool error.  The
two schema documents, JSON.parse and the remote endpoint are parameters. -/
def dispatchInner (parse : String → Option Json) (envKey : Option String)
    (remote : RemoteApi) (imageSchema videoSchema : Json)
    (name : String) (args : Json) : Except String CallResult :=
  if name = "create_image_config" then do
    let cfg ← handleCreateImageConfig args
    pure { text := jsonStringify (Json.obj [("type", Json.str "image"), ("config", cfg)]),
           isError := false }
  else if name = "create_video_config" then do
    let cfg ← handleCreateVideoConfig args
    pure { text := jsonStringify (Json.obj [("type", Json.str "video"), ("config", cfg)]),
           isError := false }
  else if name = "validate_config" then
    handleValidateConfig parse envKey remote args
  else if name = "get_image_schema" then
    pure { text := jsonStringify imageSchema, isError := false }
  else if name = "get_video_schema" then
    pure { text := jsonStringify videoSchema, isError := false }
  else
    Except.error ("Unknown tool: " ++ name)

/-- The try/catch around the stdio tool dispatch (src/index.ts lines
481-511): every error thrown during dispatch is converted into a
structured failure result (isError true, text prefixed with Error:) and
returned through the same channel as success; the function is total, so
an operation-level error never escapes to the transport. -/
def callToolBoundary (parse : String → Option Json) (envKey : Option String)
    (remote : RemoteApi) (imageSchema videoSchema : Json)
    (name : String) (args : Json) : CallResult :=
  match dispatchInner parse envKey remote imageSchema videoSchema name args with
  | Except.ok r => r
  | Except.error m => { text := "Error: " ++ m, isError := true }

/-- The inner switch of the HTTP variant's CallToolRequestSchema handler
(lines 254-283 of the HTTP source file). -/
def dispatchInnerHttp (sessionKey : String) (remote : RemoteApi)
    (imageSchema videoSchema : Json)
    (name : String) (args : Json) : Except String CallResult :=
  if name = "create_image_config" then
    Except.ok { text := jsonStringify (handleCreateImageConfigHttp args), isError := false }
  else if name = "create_video_config" then
    Except.ok { text := jsonStringify (handleCreateVideoConfigHttp args), isError := false }
  else if name = "validate_config" then
    handleValidateConfigHttp sessionKey remote args
  else if name = "get_image_schema" then
    Except.ok { text := jsonStringify imageSchema, isError := false }
  else if name = "get_video_schema" then
    Except.ok { text := jsonStringify videoSchema, isError := false }
  else
    Except.error ("Unknown tool: " ++ name)

/-- The try/catch around the HTTP variant's tool dispatch. -/
def callToolBoundaryHttp (sessionKey : String) (remote : RemoteApi)
    (imageSchema videoSchema : Json)
    (name : String) (args : Json) : CallResult :=
  match dispatchInnerHttp sessionKey remote imageSchema videoSchema name args with
  | Except.ok r => r
  | Except.error m => { text := "Error: " ++ m, isError := true }

/- ----------------------------------------------------------------- -/
/- Session multiplexer of the HTTP variant (lines 397-527).          -/
/- ----------------------------------------------------------------- -/

/-- The session map: session identifier to the credential bound at
creation (the JsoncutMCPServer instance of a session is constructed with
exactly that credential, so the credential determines the registry's
behaviour). -/
def Sessions : Type :=
  List (String × String)

/-- An inbound POST /mcp request: the mcp-session-id header, the
x-api-key header, and whether the body is an initialize request. -/
structure McpPost where
  sessionId : Option String
  apiKey : Option String
  isInit : Bool

/-- How the multiplexer answered a request. -/
inductive McpResponse where
  | routed : String → McpResponse
  | invalidSession : McpResponse
  | missingCredential : McpResponse
  | initialized : String → McpResponse
deriving DecidableEq, Repr

/-- The check `sessionId && sessions.has(sessionId)`: an absent or empty
header is falsy; otherwise look the identifier up in the map.  Returns
the credential of the matching session. -/
def sessionLookup (st : Sessions) (h : Option String) : Option String :=
  match h with
  | none => none
  | some sid => if sid = "" then none else st.lookup sid

/-- The POST /mcp endpoint (lines 415-496): a request bearing a known
session identifier is routed to that session's transport/registry (which
carries the credential bound at creation); otherwise a non-initialize
request is rejected with 400 (invalid session), an initialize request
without an x-api-key header is rejected with 401 (missing credential),
and an initialize request with a credential creates a fresh session under
a freshly generated identifier.  randomUUID is modelled by the freshId
parameter. -/
def postMcp (st : Sessions) (freshId : String) (r : McpPost) :
    McpResponse × Sessions :=
  match sessionLookup st r.sessionId with
  | some cred => (McpResponse.routed cred, st)
  | none =>
      if r.isInit = false then
        (McpResponse.invalidSession, st)
      else
        match r.apiKey with
        | none => (McpResponse.missingCredential, st)
        | some k =>
            if k = "" then
              (McpResponse.missingCredential, st)
            else
              (McpResponse.initialized freshId, (freshId, k) :: st)

/-- The GET /mcp endpoint (lines 499-511): an absent or unknown session
identifier is rejected with 400 and no state change; a known one is
routed to the session's transport. -/
def getMcp (st : Sessions) (sessionId : Option String) :
    McpResponse × Sessions :=
  match sessionLookup st sessionId with
  | none => (McpResponse.invalidSession, st)
  | some cred => (McpResponse.routed cred, st)

/-- The DELETE /mcp endpoint (lines 514-527): an absent or unknown
session identifier is rejected with 400 and no state change; a known one
is routed and then removed from the map. -/
def deleteMcp (st : Sessions) (sessionId : Option String) :
    McpResponse × Sessions :=
  match sessionId with
  | none => (McpResponse.invalidSession, st)
  | some sid =>
      if sid = "" then (McpResponse.invalidSession, st)
      else
        match List.lookup sid st with
        | none => (McpResponse.invalidSession, st)
        | some cred => (McpResponse.routed cred, st.filter (fun p => p.1 ≠ sid))

/-- A well-formed entry of the remote validation payload's error list:
a message and an optional field path. -/
def mkErrEntry : String × Option String → Json
  | (msg, f) =>
      Json.obj ([("message", Json.str msg)] ++
        (match f with
         | some fv => [("field", Json.str fv)]
         | none => []))

/-- A well-formed entry of the remote validation payload's detected
resources list: a type, a url and an optional size. -/
def mkResEntry : String × String × Option Int → Json
  | (ty, url, sz) =>
      Json.obj ([("type", Json.str ty), ("url", Json.str url)] ++
        (match sz with
         | some n => [("size", Json.num n)]
         | none => []))

/-- The data payload of a successful remote validation response, with each
optional field (estimated cost, error list, detected resources) present
exactly when the corresponding option is some — every combination of
present/absent optional fields is expressible. -/
def mkValidationData (isValid : Bool) (est : Option Int)
    (errs : Option (List (String × Option String)))
    (ress : Option (List (String × String × Option Int))) : Json :=
  Json.obj ([("isValid", Json.bool isValid)] ++
    (match est with
     | some n => [("estimatedTokens", Json.num n)]
     | none => []) ++
    (match errs with
     | some l => [("errors", Json.arr (l.map mkErrEntry))]
     | none => []) ++
    (match ress with
     | some l => [("detectedResources", Json.arr (l.map mkResEntry))]
     | none => []))

/-- A success-flagged (2xx, success true) remote validation response body
with the given data payload. -/
def mkValidationResponse (isValid : Bool) (est : Option Int)
    (errs : Option (List (String × Option String)))
    (ress : Option (List (String × String × Option Int))) : Json :=
  Json.obj [("success", Json.bool true),
            ("data", mkValidationData isValid est errs ress)]

/-- A concrete JSON.parse stand-in used to instantiate the verified
statements at runnable inputs: the text good parses to the empty object,
everything else fails to parse. -/
def sampleParse : String → Option Json :=
  fun s => if s = "good" then some (Json.obj []) else none

/-- A concrete remote endpoint behaviour (always a transport failure)
used to instantiate the verified statements at runnable inputs. -/
def sampleRemote : RemoteApi :=
  fun _ _ _ => RemoteOutcome.transportError "down"

/-- The property names the stdio image builder recognizes (reads from the
argument bundle): all others are absent from the built configuration. -/
def imageConfigKeys : List String :=
  ["width", "height", "layers", "backgroundColor", "format", "quality", "defaults"]

/-- The property names the stdio video builder recognizes. -/
def videoConfigKeys : List String :=
  ["width", "height", "fps", "format", "clips", "fast", "audioFilePath",
   "loopAudio", "outputVolume", "keepSourceAudio", "clipsAudioVolume",
   "audioTracks", "audioNorm", "defaults"]

/- ----------------------------------------------------------------- -/
/- Shared lemmas.                                                    -/
/- ----------------------------------------------------------------- -/

@[simp] lemma truthy_null : truthy Json.null = false := rfl

@[simp] lemma truthy_undefined : truthy Json.undefined = false := rfl

@[simp] lemma truthy_bool (b : Bool) : truthy (Json.bool b) = b := rfl

@[simp] lemma truthy_num (n : Int) : truthy (Json.num n) = (n != 0) := rfl

@[simp] lemma truthy_str (s : String) : truthy (Json.str s) = (s ≠ "") := by
  simp [truthy]

@[simp] lemma truthy_arr (xs : List Json) : truthy (Json.arr xs) = true := rfl

@[simp] lemma truthy_obj (fs : List (String × Json)) : truthy (Json.obj fs) = true := rfl

@[simp] lemma isUndefined_undefined : isUndefined Json.undefined = true := rfl

@[simp] lemma isUndefined_null : isUndefined Json.null = false := rfl

@[simp] lemma isUndefined_bool (b : Bool) : isUndefined (Json.bool b) = false := rfl

@[simp] lemma isUndefined_num (n : Int) : isUndefined (Json.num n) = false := rfl

@[simp] lemma isUndefined_str (s : String) : isUndefined (Json.str s) = false := rfl

@[simp] lemma isUndefined_arr (xs : List Json) : isUndefined (Json.arr xs) = false := rfl

@[simp] lemma isUndefined_obj (fs : List (String × Json)) :
    isUndefined (Json.obj fs) = false := rfl

@[simp] lemma jsOr_of_truthy (a b : Json) (h : truthy a = true) : jsOr a b = a := by
  simp [jsOr, h]

@[simp] lemma jsOr_undefined (b : Json) : jsOr Json.undefined b = b := rfl

@[simp] lemma jsOr_null (b : Json) : jsOr Json.null b = b := rfl

lemma lookup_append (k : String) (l1 l2 : List (String × Json)) :
    List.lookup k (l1 ++ l2) =
      match List.lookup k l1 with
      | some v => some v
      | none => List.lookup k l2 := by
  induction l1 with
  | nil => simp [List.lookup]
  | cons p rest ih =>
      cases p with
      | mk pk pv =>
          by_cases hk : k = pk
          · simp [List.lookup, hk]
          · have hbeq : (k == pk) = false := by simp [hk]
            simp [List.lookup, hbeq, ih]

lemma lookup_single_ne (k lit : String) (v : Json) (h : k ≠ lit) :
    List.lookup k [(lit, v)] = none := by
  have hbeq : (k == lit) = false := by simp [h]
  simp [List.lookup, hbeq]

lemma lookup_cons_ne (k lit : String) (v : Json) (rest : List (String × Json))
    (h : k ≠ lit) : List.lookup k ((lit, v) :: rest) = List.lookup k rest := by
  have hbeq : (k == lit) = false := by simp [h]
  simp [List.lookup, hbeq]

/- ----------------------------------------------------------------- -/
/- Claim theorems.                                                   -/
/- ----------------------------------------------------------------- -/

/-- C9: in the single-user (stdio) variant, default substitution in the
config builders triggers on any falsy supplied value, not only on
absence: a bundle supplying width 0 builds an image configuration with
width 1920 (resp. height 0 gives 1080); a bundle supplying height 0 or
fps 0 builds a video configuration with height 720, fps 25. -/
theorem stdio_falsy_defaults (fields : List (String × Json)) :
    (fields.lookup "width" = some (Json.num 0) →
      resultField (handleCreateImageConfig (Json.obj fields)) "width" =
        some (Json.num 1920)) ∧
    (fields.lookup "height" = some (Json.num 0) →
      resultField (handleCreateImageConfig (Json.obj fields)) "height" =
        some (Json.num 1080)) ∧
    (fields.lookup "height" = some (Json.num 0) →
      resultField (handleCreateVideoConfig (Json.obj fields)) "height" =
        some (Json.num 720)) ∧
    (fields.lookup "fps" = some (Json.num 0) →
      resultField (handleCreateVideoConfig (Json.obj fields)) "fps" =
        some (Json.num 25)) := by
  refine ⟨fun h => ?_, fun h => ?_, fun h => ?_, fun h => ?_⟩ <;>
    simp [handleCreateImageConfig, handleCreateVideoConfig, member, h, bind,
      Except.bind, pure, Except.pure, resultField, lookup_append, List.lookup,
      jsOr, truthy]

/-- C9 witness: a concrete bundle with width 0, height 0 and fps 0
receives the documented defaults in both builders. -/
theorem stdio_falsy_defaults_witness :
    resultField (handleCreateImageConfig (Json.obj
        [("width", Json.num 0), ("height", Json.num 0), ("fps", Json.num 0),
         ("layers", Json.arr [])])) "width" = some (Json.num 1920) ∧
    resultField (handleCreateImageConfig (Json.obj
        [("width", Json.num 0), ("height", Json.num 0), ("fps", Json.num 0),
         ("layers", Json.arr [])])) "height" = some (Json.num 1080) ∧
    resultField (handleCreateVideoConfig (Json.obj
        [("width", Json.num 0), ("height", Json.num 0), ("fps", Json.num 0),
         ("clips", Json.arr [])])) "height" = some (Json.num 720) ∧
    resultField (handleCreateVideoConfig (Json.obj
        [("width", Json.num 0), ("height", Json.num 0), ("fps", Json.num 0),
         ("clips", Json.arr [])])) "fps" = some (Json.num 25) :=
  ⟨(stdio_falsy_defaults _).1 rfl,
   (stdio_falsy_defaults _).2.1 rfl,
   (stdio_falsy_defaults _).2.2.1 rfl,
   (stdio_falsy_defaults _).2.2.2 rfl⟩

/-- C2 counterexample: in the HTTP variant, building an image
configuration from a bundle containing only the required layers field
returns the bundle unchanged — the documented default width 1920 (and
height 1080) is absent from the output, contradicting the claim for that
config-building operation. -/
theorem http_build_no_defaults_counterexample :
    handleCreateImageConfigHttp (Json.obj [("layers", Json.arr [])]) =
      Json.obj [("layers", Json.arr [])] ∧
    jsonField (handleCreateImageConfigHttp (Json.obj [("layers", Json.arr [])]))
      "width" = none :=
  ⟨rfl, rfl⟩

/-- C2 amended: in the single-user (stdio) variant, building a
configuration from a bundle containing only the required collection field
returns exactly the documented defaults for that shape plus the supplied
collection — image: width 1920, height 1080 and the supplied layers, with
no backgroundColor, format or quality keys present; video: width 1280,
height 720, fps 25, format mp4 and the supplied clips.  (The HTTP
variant's builder applies no defaults and returns the bundle verbatim.) -/
theorem stdio_build_with_only_collection (L C : Json)
    (hL : truthy L = true) (hC : truthy C = true) :
    handleCreateImageConfig (Json.obj [("layers", L)]) =
      Except.ok (Json.obj
        [("width", Json.num 1920), ("height", Json.num 1080), ("layers", L)]) ∧
    handleCreateVideoConfig (Json.obj [("clips", C)]) =
      Except.ok (Json.obj
        [("width", Json.num 1280), ("height", Json.num 720), ("fps", Json.num 25),
         ("format", Json.str "mp4"), ("clips", C)]) := by
  constructor <;>
    simp [handleCreateImageConfig, handleCreateVideoConfig, member, bind,
      Except.bind, pure, Except.pure, List.lookup, hL, hC, audioTracksSeg]

/-- C2 witness: the end-to-end scenario from the specification — an image
bundle whose only field is one text layer saying Hi builds exactly
width 1920, height 1080 and that layer list. -/
theorem stdio_build_with_only_collection_witness :
    handleCreateImageConfig (Json.obj [("layers",
        Json.arr [Json.obj [("type", Json.str "text"), ("text", Json.str "Hi")]])]) =
      Except.ok (Json.obj
        [("width", Json.num 1920), ("height", Json.num 1080),
         ("layers",
          Json.arr [Json.obj [("type", Json.str "text"), ("text", Json.str "Hi")]])]) ∧
    handleCreateVideoConfig (Json.obj [("clips", Json.arr [])]) =
      Except.ok (Json.obj
        [("width", Json.num 1280), ("height", Json.num 720), ("fps", Json.num 25),
         ("format", Json.str "mp4"), ("clips", Json.arr [])]) :=
  ⟨(stdio_build_with_only_collection
      (Json.arr [Json.obj [("type", Json.str "text"), ("text", Json.str "Hi")]])
      (Json.arr []) rfl rfl).1,
   (stdio_build_with_only_collection
      (Json.arr [Json.obj [("type", Json.str "text"), ("text", Json.str "Hi")]])
      (Json.arr []) rfl rfl).2⟩

/-- C3 counterexample: the stdio image builder does not pass an
unrecognized field through — a bundle carrying a field named foo with
value 42 builds a configuration in which foo is absent, contradicting the
claim that every field outside the documented optional set appears in the
output with the supplied value. -/
theorem stdio_build_drops_unrecognized_counterexample :
    resultField (handleCreateImageConfig
        (Json.obj [("layers", Json.arr []), ("foo", Json.num 42)])) "foo" = none ∧
    handleCreateImageConfig
        (Json.obj [("layers", Json.arr []), ("foo", Json.num 42)]) =
      Except.ok (Json.obj
        [("width", Json.num 1920), ("height", Json.num 1080),
         ("layers", Json.arr [])]) :=
  ⟨rfl, rfl⟩

/-- C3 amended: in the HTTP variant every field of the bundle is passed
through unchanged (the builders return the bundle verbatim); in the
single-user (stdio) variant the builders never error on a field bundle —
unrecognized fields are silently dropped rather than passed through, so
the output contains only the recognized property names. -/
theorem build_passthrough_and_totality :
    (∀ args : Json, handleCreateImageConfigHttp args = args) ∧
    (∀ args : Json, handleCreateVideoConfigHttp args = args) ∧
    (∀ fields : List (String × Json),
      ∃ cfg, handleCreateImageConfig (Json.obj fields) = Except.ok cfg) ∧
    (∀ fields : List (String × Json),
      ∃ cfg, handleCreateVideoConfig (Json.obj fields) = Except.ok cfg) ∧
    (∀ (fields : List (String × Json)) (k : String), k ∉ imageConfigKeys →
      resultField (handleCreateImageConfig (Json.obj fields)) k = none) ∧
    (∀ (fields : List (String × Json)) (k : String), k ∉ videoConfigKeys →
      resultField (handleCreateVideoConfig (Json.obj fields)) k = none) := by
  refine ⟨fun args => rfl, fun args => rfl,
    fun fields => ⟨_, rfl⟩, fun fields => ⟨_, rfl⟩,
    fun fields k hk => ?_, fun fields k hk => ?_⟩
  · simp [imageConfigKeys] at hk
    obtain ⟨h1, h2, h3, h4, h5, h6, h7⟩ := hk
    have b1 : (k == "width") = false := by simp [h1]
    have b2 : (k == "height") = false := by simp [h2]
    have b3 : (k == "layers") = false := by simp [h3]
    have b4 : (k == "backgroundColor") = false := by simp [h4]
    have b5 : (k == "format") = false := by simp [h5]
    have b6 : (k == "quality") = false := by simp [h6]
    have b7 : (k == "defaults") = false := by simp [h7]
    simp [handleCreateImageConfig, member, bind, Except.bind, pure, Except.pure,
      resultField, lookup_append, List.lookup,
      b1, b2, b3, b4, b5, b6, b7, apply_ite (List.lookup k)]
  · simp [videoConfigKeys] at hk
    obtain ⟨h1, h2, h3, h4, h5, h6, h7, h8, h9, h10, h11, h12, h13, h14⟩ := hk
    have b1 : (k == "width") = false := by simp [h1]
    have b2 : (k == "height") = false := by simp [h2]
    have b3 : (k == "fps") = false := by simp [h3]
    have b4 : (k == "format") = false := by simp [h4]
    have b5 : (k == "clips") = false := by simp [h5]
    have b6 : (k == "fast") = false := by simp [h6]
    have b7 : (k == "audioFilePath") = false := by simp [h7]
    have b8 : (k == "loopAudio") = false := by simp [h8]
    have b9 : (k == "outputVolume") = false := by simp [h9]
    have b10 : (k == "keepSourceAudio") = false := by simp [h10]
    have b11 : (k == "clipsAudioVolume") = false := by simp [h11]
    have b12 : (k == "audioTracks") = false := by simp [h12]
    have b13 : (k == "audioNorm") = false := by simp [h13]
    have b14 : (k == "defaults") = false := by simp [h14]
    simp [handleCreateVideoConfig, member, bind, Except.bind, pure, Except.pure,
      resultField, lookup_append, List.lookup, audioTracksSeg,
      b1, b2, b3, b4, b5, b6, b7, b8, b9, b10, b11, b12, b13, b14,
      apply_ite (List.lookup k)]

/-- C3 witness: with a concrete bundle holding an unrecognized field foo,
the HTTP builders return it verbatim, the stdio builders succeed, and the
stdio output drops foo. -/
theorem build_passthrough_and_totality_witness :
    handleCreateImageConfigHttp (Json.obj [("foo", Json.num 42)]) =
      Json.obj [("foo", Json.num 42)] ∧
    handleCreateVideoConfigHttp (Json.obj [("foo", Json.num 42)]) =
      Json.obj [("foo", Json.num 42)] ∧
    (∃ cfg, handleCreateImageConfig (Json.obj [("foo", Json.num 42)]) =
      Except.ok cfg) ∧
    (∃ cfg, handleCreateVideoConfig (Json.obj [("foo", Json.num 42)]) =
      Except.ok cfg) ∧
    resultField (handleCreateImageConfig (Json.obj [("foo", Json.num 42)]))
      "foo" = none ∧
    resultField (handleCreateVideoConfig (Json.obj [("foo", Json.num 42)]))
      "foo" = none :=
  ⟨build_passthrough_and_totality.1 (Json.obj [("foo", Json.num 42)]),
   build_passthrough_and_totality.2.1 (Json.obj [("foo", Json.num 42)]),
   build_passthrough_and_totality.2.2.1 [("foo", Json.num 42)],
   build_passthrough_and_totality.2.2.2.1 [("foo", Json.num 42)],
   build_passthrough_and_totality.2.2.2.2.1 [("foo", Json.num 42)] "foo"
     (by decide),
   build_passthrough_and_totality.2.2.2.2.2 [("foo", Json.num 42)] "foo"
     (by decide)⟩

/-- C4 counterexample: a credential attached to a later request as an
operation argument is not ignored — in a session bound to credential C, a
validate invocation whose args carry apiKey D reaches the remote endpoint
with key D, not C (the remote behaviour here echoes the key it was
handed, so the result exhibits which credential was used on the wire). -/
theorem session_credential_override_counterexample :
    handleValidateConfigHttp "C"
      (fun _ _ key => RemoteOutcome.transportError (jsToString key))
      (Json.obj [("type", Json.str "image"), ("config", Json.obj []),
                 ("apiKey", Json.str "D")]) =
      Except.ok (validationError "D\n") ∧
    ("D" : String) ≠ "C" :=
  ⟨rfl, by decide⟩

/-- C4 amended: a request bearing a known session identifier is routed to
the registry holding the credential bound at session creation, regardless
of the transport-level credential header (and of whether the body is an
initialize request); within that registry an operation that presents no
apiKey argument runs with the session credential, but a truthy apiKey
operation argument overrides the session credential for that
invocation. -/
theorem session_routing_and_key_resolution :
    (∀ (st : Sessions) (freshId : String) (r : McpPost) (sid cred : String),
      r.sessionId = some sid → sid ≠ "" → List.lookup sid st = some cred →
      postMcp st freshId r = (McpResponse.routed cred, st)) ∧
    (∀ sessionKey : String, sessionKey ≠ "" →
      getApiKeyHttp Json.undefined sessionKey = Except.ok (Json.str sessionKey)) ∧
    (∀ (provided : Json) (sessionKey : String), truthy provided = true →
      getApiKeyHttp provided sessionKey = Except.ok provided) := by
  refine ⟨fun st freshId r sid cred hsid hne hlk => ?_, fun sk hsk => ?_,
    fun p sk hp => ?_⟩
  · simp [postMcp, sessionLookup, hsid, hne, hlk]
  · simp [getApiKeyHttp, jsOr, hsk]
  · simp [getApiKeyHttp, jsOr, hp]

/-- C4 witness: a session holding credential C routes a later request
with a different header credential to C, resolves an absent operation
argument to C, and lets an explicit argument D override C. -/
theorem session_routing_and_key_resolution_witness :
    postMcp [("s1", "C")] "n"
      { sessionId := some "s1", apiKey := some "D", isInit := false } =
      (McpResponse.routed "C", [("s1", "C")]) ∧
    getApiKeyHttp Json.undefined "C" = Except.ok (Json.str "C") ∧
    getApiKeyHttp (Json.str "D") "C" = Except.ok (Json.str "D") :=
  ⟨session_routing_and_key_resolution.1 [("s1", "C")] "n"
      { sessionId := some "s1", apiKey := some "D", isInit := false } "s1" "C"
      rfl (by decide) rfl,
   session_routing_and_key_resolution.2.1 "C" (by decide),
   session_routing_and_key_resolution.2.2 (Json.str "D") "C" rfl⟩

/-- C5 counterexample: a POST bearing a session identifier that was never
issued does not always fail — when its body is an initialize request and
a credential header is present, a brand-new session is created under a
fresh identifier and the session map grows, contradicting the claim that
no state transition occurs. -/
theorem unknown_session_init_creates_session_counterexample :
    postMcp [] "fresh"
      { sessionId := some "ghost", apiKey := some "k", isInit := true } =
      (McpResponse.initialized "fresh", [("fresh", "k")]) ∧
    (McpResponse.initialized "fresh" ≠ McpResponse.invalidSession) ∧
    ([("fresh", "k")] : List (String × String)) ≠ [] :=
  ⟨rfl, by decide, by decide⟩

/-- C5 amended: a non-initialize request bearing a session identifier
that was never issued or was already terminated fails with the invalid
session rejection, creates no session and leaves the session map
unchanged (for POST, GET and DELETE alike); an initialize request bearing
an unknown session identifier, however, is treated as a fresh
initialization: with a credential present it creates a new session under
a freshly generated identifier. -/
theorem unknown_session_handling (st : Sessions) (freshId : String) :
    (∀ (r : McpPost) (sid : String), r.sessionId = some sid →
      List.lookup sid st = none → r.isInit = false →
      postMcp st freshId r = (McpResponse.invalidSession, st)) ∧
    (∀ sid : String, List.lookup sid st = none →
      getMcp st (some sid) = (McpResponse.invalidSession, st)) ∧
    (getMcp st none = (McpResponse.invalidSession, st)) ∧
    (∀ sid : String, List.lookup sid st = none →
      deleteMcp st (some sid) = (McpResponse.invalidSession, st)) ∧
    (deleteMcp st none = (McpResponse.invalidSession, st)) ∧
    (∀ (r : McpPost) (sid k : String), r.sessionId = some sid →
      List.lookup sid st = none → r.isInit = true → r.apiKey = some k → k ≠ "" →
      postMcp st freshId r =
        (McpResponse.initialized freshId, (freshId, k) :: st)) := by
  refine ⟨fun r sid hsid hlk hinit => ?_, fun sid hlk => ?_, ?_,
    fun sid hlk => ?_, ?_, fun r sid k hsid hlk hinit hkey hne => ?_⟩
  · by_cases he : sid = "" <;>
      simp [postMcp, sessionLookup, hsid, hlk, hinit, he]
  · by_cases he : sid = "" <;> simp [getMcp, sessionLookup, hlk, he]
  · simp [getMcp, sessionLookup]
  · by_cases he : sid = "" <;> simp [deleteMcp, hlk, he]
  · simp [deleteMcp]
  · by_cases he : sid = "" <;>
      simp [postMcp, sessionLookup, hsid, hlk, hinit, hkey, hne, he]

/-- C5 witness: concrete unknown-identifier requests against a one-session
map are rejected without changing the map, and a concrete unknown-id
initialize request with a credential creates a fresh session. -/
theorem unknown_session_handling_witness :
    postMcp [("s1", "C")] "n"
      { sessionId := some "ghost", apiKey := some "D", isInit := false } =
      (McpResponse.invalidSession, [("s1", "C")]) ∧
    getMcp [("s1", "C")] (some "ghost") =
      (McpResponse.invalidSession, [("s1", "C")]) ∧
    getMcp [("s1", "C")] none = (McpResponse.invalidSession, [("s1", "C")]) ∧
    deleteMcp [("s1", "C")] (some "ghost") =
      (McpResponse.invalidSession, [("s1", "C")]) ∧
    deleteMcp [("s1", "C")] none = (McpResponse.invalidSession, [("s1", "C")]) ∧
    postMcp [("s1", "C")] "n"
      { sessionId := some "ghost", apiKey := some "k", isInit := true } =
      (McpResponse.initialized "n", [("n", "k"), ("s1", "C")]) :=
  ⟨(unknown_session_handling [("s1", "C")] "n").1
      { sessionId := some "ghost", apiKey := some "D", isInit := false }
      "ghost" rfl rfl rfl,
   (unknown_session_handling [("s1", "C")] "n").2.1 "ghost" rfl,
   (unknown_session_handling [("s1", "C")] "n").2.2.1,
   (unknown_session_handling [("s1", "C")] "n").2.2.2.1 "ghost" rfl,
   (unknown_session_handling [("s1", "C")] "n").2.2.2.2.1,
   (unknown_session_handling [("s1", "C")] "n").2.2.2.2.2
      { sessionId := some "ghost", apiKey := some "k", isInit := true }
      "ghost" "k" rfl rfl rfl rfl (by decide)⟩

/-- C6: an initialization request carrying no credential (absent or empty
x-api-key header) is rejected with the missing-credential status and no
session is created (the map is unchanged, whatever its contents); any
follow-up continuation request bearing an invented session identifier
unknown to the map — over POST, GET or DELETE — fails with the invalid
session rejection and performs no state transition. -/
theorem init_without_credential_rejected (st : Sessions) (freshId : String) :
    (∀ r : McpPost, r.sessionId = none → r.isInit = true →
      (r.apiKey = none ∨ r.apiKey = some "") →
      postMcp st freshId r = (McpResponse.missingCredential, st)) ∧
    (∀ (r : McpPost) (sid : String), r.sessionId = some sid →
      List.lookup sid st = none → r.isInit = false →
      postMcp st freshId r = (McpResponse.invalidSession, st)) ∧
    (∀ sid : String, List.lookup sid st = none →
      getMcp st (some sid) = (McpResponse.invalidSession, st)) ∧
    (∀ sid : String, List.lookup sid st = none →
      deleteMcp st (some sid) = (McpResponse.invalidSession, st)) := by
  refine ⟨fun r hsid hinit hkey => ?_, fun r sid hsid hlk hinit => ?_,
    fun sid hlk => ?_, fun sid hlk => ?_⟩
  · rcases hkey with hk | hk <;> simp [postMcp, sessionLookup, hsid, hinit, hk]
  · by_cases he : sid = "" <;>
      simp [postMcp, sessionLookup, hsid, hlk, hinit, he]
  · by_cases he : sid = "" <;> simp [getMcp, sessionLookup, hlk, he]
  · by_cases he : sid = "" <;> simp [deleteMcp, hlk, he]

/-- C6 witness: the end-to-end scenario — an initialize request with no
session header and no credential header against an empty multiplexer is
rejected leaving the map empty, and a following request with a freshly
invented session header fails with the invalid-session rejection. -/
theorem init_without_credential_rejected_witness :
    postMcp [] "fresh" { sessionId := none, apiKey := none, isInit := true } =
      (McpResponse.missingCredential, ([] : Sessions)) ∧
    postMcp [] "fresh"
      { sessionId := some "invented", apiKey := none, isInit := false } =
      (McpResponse.invalidSession, ([] : Sessions)) ∧
    getMcp [] (some "invented") = (McpResponse.invalidSession, ([] : Sessions)) ∧
    deleteMcp [] (some "invented") =
      (McpResponse.invalidSession, ([] : Sessions)) :=
  ⟨(init_without_credential_rejected [] "fresh").1
      { sessionId := none, apiKey := none, isInit := true } rfl rfl (Or.inl rfl),
   (init_without_credential_rejected [] "fresh").2.1
      { sessionId := some "invented", apiKey := none, isInit := false }
      "invented" rfl rfl rfl,
   (init_without_credential_rejected [] "fresh").2.2.1 "invented" rfl,
   (init_without_credential_rejected [] "fresh").2.2.2 "invented" rfl⟩

/-- C1: in the stdio variant, a validate invocation whose argument bundle
carries no apiKey field, when no environment credential is configured
(envKey none) and type and config are well-formed, returns the
AuthenticationError result — and the outcome is the same for every
possible remote behaviour, i.e. no outbound HTTP request is observable. -/
theorem validate_missing_key_auth_error
    (parse : String → Option Json) (remote : RemoteApi)
    (fields : List (String × Json))
    (hkey : fields.lookup "apiKey" = none)
    (hty : truthy ((fields.lookup "type").getD Json.undefined) = true)
    (hcfg : truthy ((fields.lookup "config").getD Json.undefined) = true)
    (hparse : ∀ s : String, fields.lookup "config" = some (Json.str s) →
      (parse s).isSome = true) :
    handleValidateConfig parse none remote (Json.obj fields) =
      Except.ok (validationError authErrorMessage) := by
  have hpk : (fields.lookup "apiKey").getD Json.undefined = Json.undefined := by
    rw [hkey]
    rfl
  rcases hc0 : fields.lookup "config" with _ | c
  · rw [hc0] at hcfg
    simp at hcfg
  · rw [hc0] at hcfg
    simp only [Option.getD] at hcfg
    rcases c with _ | _ | b | n | s | xs | fs
    · simp at hcfg
    · simp at hcfg
    · simp at hcfg
      simp [handleValidateConfig, validatePre, member, bind, Except.bind, pure,
        Except.pure, envJson, hty, hc0, hpk, hcfg]
    · simp [handleValidateConfig, validatePre, member, bind, Except.bind, pure,
        Except.pure, envJson, hty, hc0, hpk, hcfg]
    · rcases hp : parse s with _ | j
      · have hps := hparse s hc0
        simp [hp] at hps
      · simp [handleValidateConfig, validatePre, member, bind, Except.bind, pure,
          Except.pure, envJson, hty, hc0, hpk, hcfg, hp]
    · simp [handleValidateConfig, validatePre, member, bind, Except.bind, pure,
        Except.pure, envJson, hty, hc0, hpk]
    · simp [handleValidateConfig, validatePre, member, bind, Except.bind, pure,
        Except.pure, envJson, hty, hc0, hpk]

/-- C1 witness: a concrete credential-less validate call with a
well-formed image bundle and no environment key yields exactly the
AuthenticationError result. -/
theorem validate_missing_key_auth_error_witness :
    handleValidateConfig (fun _ => none) none
      (fun _ _ _ => RemoteOutcome.transportError "unreachable")
      (Json.obj [("type", Json.str "image"), ("config", Json.obj [])]) =
      Except.ok (validationError authErrorMessage) :=
  validate_missing_key_auth_error (fun _ => none)
    (fun _ _ _ => RemoteOutcome.transportError "unreachable")
    [("type", Json.str "image"), ("config", Json.obj [])]
    rfl rfl rfl (by intro s h; simp [List.lookup] at h)

/-- C10: in the stdio variant, validate accepts the config argument as an
object or as a JSON string: a string that parses has its parsed value
posted to the remote endpoint; a non-parsing string yields the structured
Invalid config JSON string error; a missing type or config argument
yields the corresponding structured missing-parameter error — and in each
error case the result is the same for every remote behaviour, so no
network call is made before the error. -/
theorem validate_arg_handling
    (parse : String → Option Json) (envKey : Option String) (remote : RemoteApi) :
    (∀ (fields : List (String × Json)) (s : String) (j : Json),
      truthy ((fields.lookup "type").getD Json.undefined) = true →
      fields.lookup "config" = some (Json.str s) → s ≠ "" →
      parse s = some j →
      truthy (jsOr ((fields.lookup "apiKey").getD Json.undefined)
        (envJson envKey)) = true →
      handleValidateConfig parse envKey remote (Json.obj fields) =
        handleRemote (remote ((fields.lookup "type").getD Json.undefined) j
          (jsOr ((fields.lookup "apiKey").getD Json.undefined) (envJson envKey)))) ∧
    (∀ (fields : List (String × Json)) (s : String),
      truthy ((fields.lookup "type").getD Json.undefined) = true →
      fields.lookup "config" = some (Json.str s) → s ≠ "" →
      parse s = none →
      handleValidateConfig parse envKey remote (Json.obj fields) =
        Except.ok (validationError "Invalid config JSON string")) ∧
    (∀ fields : List (String × Json),
      truthy ((fields.lookup "type").getD Json.undefined) = false →
      handleValidateConfig parse envKey remote (Json.obj fields) =
        Except.ok (validationError "Missing required parameter: type")) ∧
    (∀ fields : List (String × Json),
      truthy ((fields.lookup "type").getD Json.undefined) = true →
      truthy ((fields.lookup "config").getD Json.undefined) = false →
      handleValidateConfig parse envKey remote (Json.obj fields) =
        Except.ok (validationError "Missing required parameter: config")) := by
  refine ⟨fun fields s j hty hc hs hp hk => ?_, fun fields s hty hc hs hp => ?_,
    fun fields hty => ?_, fun fields hty hcfg => ?_⟩
  · have hts : truthy (Json.str s) = true := by simp [hs]
    simp [handleValidateConfig, validatePre, member, bind, Except.bind, pure,
      Except.pure, hty, hc, hts, hp, hk]
  · have hts : truthy (Json.str s) = true := by simp [hs]
    simp [handleValidateConfig, validatePre, member, bind, Except.bind, pure,
      Except.pure, hty, hc, hts, hp]
  · simp [handleValidateConfig, validatePre, member, bind, Except.bind, pure,
      Except.pure, hty]
  · simp [handleValidateConfig, validatePre, member, bind, Except.bind, pure,
      Except.pure, hty, hcfg]

/-- C10 witness: with a concrete parser accepting only the text good, a
parsing string config is forwarded parsed, a non-parsing one produces the
Invalid config JSON string result, and missing type or config arguments
produce the corresponding structured errors. -/
theorem validate_arg_handling_witness :
    handleValidateConfig sampleParse (some "k") sampleRemote
      (Json.obj [("type", Json.str "image"), ("config", Json.str "good")]) =
      handleRemote (sampleRemote (Json.str "image") (Json.obj []) (Json.str "k")) ∧
    handleValidateConfig sampleParse (some "k") sampleRemote
      (Json.obj [("type", Json.str "image"), ("config", Json.str "bad")]) =
      Except.ok (validationError "Invalid config JSON string") ∧
    handleValidateConfig sampleParse (some "k") sampleRemote (Json.obj []) =
      Except.ok (validationError "Missing required parameter: type") ∧
    handleValidateConfig sampleParse (some "k") sampleRemote
      (Json.obj [("type", Json.str "image")]) =
      Except.ok (validationError "Missing required parameter: config") :=
  ⟨(validate_arg_handling sampleParse (some "k") sampleRemote).1
      [("type", Json.str "image"), ("config", Json.str "good")] "good"
      (Json.obj []) rfl rfl (by decide) rfl rfl,
   (validate_arg_handling sampleParse (some "k") sampleRemote).2.1
      [("type", Json.str "image"), ("config", Json.str "bad")] "bad"
      rfl rfl (by decide) rfl,
   (validate_arg_handling sampleParse (some "k") sampleRemote).2.2.1 [] rfl,
   (validate_arg_handling sampleParse (some "k") sampleRemote).2.2.2
      [("type", Json.str "image")] rfl rfl⟩

/-- C7: at the tool-dispatch boundary of both variants, an unknown
operation name produces the structured unknown-tool failure result, and
every error raised during dispatch is converted into a structured failure
result (isError true) returned through the same channel as success — the
boundary functions are total, so an operation-level error never tears
down the caller's transport. -/
theorem dispatch_errors_converted
    (parse : String → Option Json) (envKey : Option String) (remote : RemoteApi)
    (imageSchema videoSchema : Json) (sessionKey : String) :
    (∀ (name : String) (args : Json), name ∉ knownToolNames →
      callToolBoundary parse envKey remote imageSchema videoSchema name args =
        { text := "Error: " ++ ("Unknown tool: " ++ name), isError := true }) ∧
    (∀ (name : String) (args : Json) (m : String),
      dispatchInner parse envKey remote imageSchema videoSchema name args =
        Except.error m →
      callToolBoundary parse envKey remote imageSchema videoSchema name args =
        { text := "Error: " ++ m, isError := true }) ∧
    (∀ (name : String) (args : Json), name ∉ knownToolNames →
      callToolBoundaryHttp sessionKey remote imageSchema videoSchema name args =
        { text := "Error: " ++ ("Unknown tool: " ++ name), isError := true }) ∧
    (∀ (name : String) (args : Json) (m : String),
      dispatchInnerHttp sessionKey remote imageSchema videoSchema name args =
        Except.error m →
      callToolBoundaryHttp sessionKey remote imageSchema videoSchema name args =
        { text := "Error: " ++ m, isError := true }) := by
  refine ⟨fun name args h => ?_, fun name args m hm => ?_,
    fun name args h => ?_, fun name args m hm => ?_⟩
  · simp [knownToolNames] at h
    obtain ⟨h1, h2, h3, h4, h5⟩ := h
    simp [callToolBoundary, dispatchInner, h1, h2, h3, h4, h5]
  · simp [callToolBoundary, hm]
  · simp [knownToolNames] at h
    obtain ⟨h1, h2, h3, h4, h5⟩ := h
    simp [callToolBoundaryHttp, dispatchInnerHttp, h1, h2, h3, h4, h5]
  · simp [callToolBoundaryHttp, hm]

/-- C7 witness: a concrete invocation of the unknown tool bogus is
answered with the structured unknown-tool failure result in both
variants, both via the unknown-name clause and the error-conversion
clause. -/
theorem dispatch_errors_converted_witness :
    callToolBoundary sampleParse (some "k") sampleRemote Json.null Json.null
      "bogus" (Json.obj []) =
      { text := "Error: Unknown tool: bogus", isError := true } ∧
    callToolBoundary sampleParse (some "k") sampleRemote Json.null Json.null
      "bogus" (Json.obj []) =
      { text := "Error: " ++ "Unknown tool: bogus", isError := true } ∧
    callToolBoundaryHttp "k" sampleRemote Json.null Json.null
      "bogus" (Json.obj []) =
      { text := "Error: Unknown tool: bogus", isError := true } ∧
    callToolBoundaryHttp "k" sampleRemote Json.null Json.null
      "bogus" (Json.obj []) =
      { text := "Error: " ++ "Unknown tool: bogus", isError := true } :=
  ⟨(dispatch_errors_converted sampleParse (some "k") sampleRemote Json.null
      Json.null "k").1 "bogus" (Json.obj []) (by decide),
   (dispatch_errors_converted sampleParse (some "k") sampleRemote Json.null
      Json.null "k").2.1 "bogus" (Json.obj []) "Unknown tool: bogus" rfl,
   (dispatch_errors_converted sampleParse (some "k") sampleRemote Json.null
      Json.null "k").2.2.1 "bogus" (Json.obj []) (by decide),
   (dispatch_errors_converted sampleParse (some "k") sampleRemote Json.null
      Json.null "k").2.2.2 "bogus" (Json.obj []) "Unknown tool: bogus" rfl⟩

lemma errLines_map_ok (l : List (String × Option String)) (idx : Nat) :
    ∃ s, errLines (l.map mkErrEntry) idx = Except.ok s := by
  induction l generalizing idx with
  | nil => exact ⟨"", rfl⟩
  | cons p rest ih =>
      obtain ⟨s, hs⟩ := ih (idx + 1)
      cases p with
      | mk m f =>
          cases f <;>
            simp [errLines, mkErrEntry, member, bind, Except.bind,
              pure, Except.pure, List.lookup, hs]

lemma resLines_map_ok (l : List (String × String × Option Int)) :
    ∃ s, resLines (l.map mkResEntry) = Except.ok s := by
  induction l with
  | nil => exact ⟨"", rfl⟩
  | cons p rest ih =>
      obtain ⟨s, hs⟩ := ih
      obtain ⟨ty, url, sz⟩ := p
      cases sz <;>
        simp [resLines, mkResEntry, member, bind, Except.bind,
          pure, Except.pure, List.lookup, hs]

lemma errorsBlock_mk_ok (errs : Option (List (String × Option String))) :
    ∃ s, errorsBlock
      (match errs with
       | some l => Json.arr (l.map mkErrEntry)
       | none => Json.undefined) = Except.ok s := by
  cases errs with
  | none => exact ⟨"", rfl⟩
  | some l =>
      obtain ⟨s, hs⟩ := errLines_map_ok l 0
      simp only [errorsBlock, member, truthy_arr, if_true, bind, Except.bind,
        pure, Except.pure]
      split <;> simp [hs, bind, Except.bind, pure, Except.pure]

lemma resourcesBlock_mk_ok (ress : Option (List (String × String × Option Int))) :
    ∃ s, resourcesBlock
      (match ress with
       | some l => Json.arr (l.map mkResEntry)
       | none => Json.undefined) = Except.ok s := by
  cases ress with
  | none => exact ⟨"", rfl⟩
  | some l =>
      obtain ⟨s, hs⟩ := resLines_map_ok l
      simp only [resourcesBlock, member, truthy_arr, if_true, bind, Except.bind,
        pure, Except.pure]
      split <;> simp [hs, bind, Except.bind, pure, Except.pure]

/-- C8: the function mapping a success-flagged (2xx, success true) remote
validation response body to the caller-facing Validation Result never
raises, for every combination of present/absent optional fields in the
payload (estimated cost, error list with optional per-error field paths,
detected resources with optional sizes) and arbitrary contents of those
fields. -/
theorem format_success_total (isValid : Bool) (est : Option Int)
    (errs : Option (List (String × Option String)))
    (ress : Option (List (String × String × Option Int))) :
    (formatSuccess (mkValidationResponse isValid est errs ress)).isOk = true := by
  obtain ⟨es, hes⟩ := errorsBlock_mk_ok errs
  obtain ⟨rs, hrs⟩ := resourcesBlock_mk_ok ress
  cases est <;> cases errs <;> cases ress <;>
    simp_all [formatSuccess, mkValidationResponse, mkValidationData, member,
      bind, Except.bind, pure, Except.pure, List.lookup, Except.isOk,
      Except.toBool]

end Jsoncut
